import Mathlib

/-!
Shallow embedding of `src/descriptors.c` from the sboot_stm32 repository:
the USB DFU descriptor table (device, configuration, interface, DFU
functional and string descriptors) and the descriptor resolver
`dfu_get_descriptor`.

The repository's headers (`usb.h`, `inc/usb_dfu.h`, `config.h`) are not
part of the sources; the struct layouts and numeric constants they supply
are modelled from the spec (which mandates exact USB 2.0 / DFU 1.1 binary
formats) and are marked `Modelled from the spec:` below.  Build-time
configuration (the `DFU_INTF_EEPROM` and `DFU_CAN_UPLOAD` preprocessor
flags and the externally supplied identifiers and strings) is modelled by
a `BuildConfig` record, so every theorem quantifies over both build
variants at once.
-/

namespace SbootDescriptors

set_option autoImplicit false

/-- Modelled from the spec: standard USB 2.0 descriptor-type codes from
`usb.h` (not under src/). DEVICE descriptor type code. -/
def USB_DTYPE_DEVICE : Nat := 1

/-- Modelled from the spec: CONFIGURATION descriptor type code. -/
def USB_DTYPE_CONFIGURATION : Nat := 2

/-- Modelled from the spec: STRING descriptor type code. -/
def USB_DTYPE_STRING : Nat := 3

/-- Modelled from the spec: INTERFACE descriptor type code. -/
def USB_DTYPE_INTERFACE : Nat := 4

/-- Modelled from the spec: DFU FUNCTIONAL descriptor type code (DFU 1.1). -/
def USB_DTYPE_DFU_FUNCTIONAL : Nat := 0x21

/-- Modelled from the spec: device class code "per interface" (0). -/
def USB_CLASS_PER_INTERFACE : Nat := 0

/-- Modelled from the spec: subclass code "none" (0). -/
def USB_SUBCLASS_NONE : Nat := 0

/-- Modelled from the spec: protocol code "none" (0). -/
def USB_PROTO_NONE : Nat := 0

/-- Modelled from the spec: application-specific (DFU) interface class code. -/
def USB_CLASS_DFU : Nat := 0xFE

/-- Modelled from the spec: DFU interface subclass code. -/
def USB_DFU_SUBCLASS_DFU : Nat := 1

/-- Modelled from the spec: DFU-mode interface protocol code. -/
def USB_DFU_PROTO_DFU : Nat := 2

/-- Modelled from the spec: DFU 1.1 functional-descriptor attribute bit
"bitCanDnload" (bit 0), from `inc/usb_dfu.h` (not under src/). -/
def USB_DFU_ATTR_CAN_DNLOAD : Nat := 1

/-- Modelled from the spec: DFU attribute bit "bitCanUpload" (bit 1). -/
def USB_DFU_ATTR_CAN_UPLOAD : Nat := 2

/-- Modelled from the spec: DFU attribute bit "bitManifestationTolerant"
(bit 2). -/
def USB_DFU_ATTR_MANIF_TOL : Nat := 4

/-- Modelled from the spec: DFU attribute bit "bitWillDetach" (bit 3). -/
def USB_DFU_ATTR_WILL_DETACH : Nat := 8

/-- Modelled from the spec: configuration-attribute reserved bit (0x80). -/
def USB_CFG_ATTR_RESERVED : Nat := 0x80

/-- Modelled from the spec: configuration-attribute self-powered bit (0x40). -/
def USB_CFG_ATTR_SELFPOWERED : Nat := 0x40

/-- Modelled from the spec: `USB_CFG_POWER_MA(mA)` encodes a power draw in
units of 2 mA. -/
def USB_CFG_POWER_MA (mA : Nat) : Nat := mA / 2

/-- Modelled from the spec: `VERSION_BCD(maj, min, rev)` packs a
binary-coded-decimal version number. -/
def VERSION_BCD (maj min rev : Nat) : Nat :=
  (maj % 256) * 256 + (min % 16) * 16 + rev % 16

/-- Modelled from the spec: the US-English language identifier (0x0409). -/
def USB_LANGID_ENG_US : Nat := 0x0409

/-- Modelled from the spec: layout of `struct usb_device_descriptor` from
`usb.h` (not under src/); the standard 18-byte USB 2.0 device descriptor.
All fields are byte values except the four 16-bit fields `bcdUSB`,
`idVendor`, `idProduct` and `bcdDevice`. -/
structure usb_device_descriptor where
  bLength : Nat
  bDescriptorType : Nat
  bcdUSB : Nat
  bDeviceClass : Nat
  bDeviceSubClass : Nat
  bDeviceProtocol : Nat
  bMaxPacketSize0 : Nat
  idVendor : Nat
  idProduct : Nat
  bcdDevice : Nat
  iManufacturer : Nat
  iProduct : Nat
  iSerialNumber : Nat
  bNumConfigurations : Nat
  deriving DecidableEq

/-- Modelled from the spec: `sizeof(struct usb_device_descriptor)`: ten
single-byte fields plus four 16-bit fields = 18 bytes. -/
def sizeof_usb_device_descriptor : Nat := 18

/-- Modelled from the spec: layout of `struct usb_config_descriptor`
(the 9-byte configuration header; `wTotalLength` is 16-bit). -/
structure usb_config_descriptor where
  bLength : Nat
  bDescriptorType : Nat
  wTotalLength : Nat
  bNumInterfaces : Nat
  bConfigurationValue : Nat
  iConfiguration : Nat
  bmAttributes : Nat
  bMaxPower : Nat
  deriving DecidableEq

/-- Modelled from the spec: `sizeof(struct usb_config_descriptor)`: seven
single-byte fields plus one 16-bit field = 9 bytes. -/
def sizeof_usb_config_descriptor : Nat := 9

/-- Modelled from the spec: layout of `struct usb_interface_descriptor`
(the standard 9-byte interface descriptor, all fields single bytes). -/
structure usb_interface_descriptor where
  bLength : Nat
  bDescriptorType : Nat
  bInterfaceNumber : Nat
  bAlternateSetting : Nat
  bNumEndpoints : Nat
  bInterfaceClass : Nat
  bInterfaceSubClass : Nat
  bInterfaceProtocol : Nat
  iInterface : Nat
  deriving DecidableEq

/-- Modelled from the spec: `sizeof(struct usb_interface_descriptor)` =
9 bytes. -/
def sizeof_usb_interface_descriptor : Nat := 9

/-- Modelled from the spec: layout of `struct usb_dfu_func_desc` from
`inc/usb_dfu.h` (not under src/); the DFU 1.1 functional descriptor:
three single-byte fields plus three 16-bit fields = 9 bytes. -/
structure usb_dfu_func_desc where
  bLength : Nat
  bDescriptorType : Nat
  bmAttributes : Nat
  wDetachTimeout : Nat
  wTransferSize : Nat
  bcdDFUVersion : Nat
  deriving DecidableEq

/-- Modelled from the spec: `sizeof(struct usb_dfu_func_desc)` = 9 bytes. -/
def sizeof_usb_dfu_func_desc : Nat := 9

/-- Modelled from the spec: a USB string descriptor: a 2-byte header
(`bLength`, `bDescriptorType`) followed by 16-bit units (`wData`), either
UTF-16 code units of the display text or, for index 0, language IDs. -/
structure usb_string_descriptor where
  bLength : Nat
  bDescriptorType : Nat
  wData : List Nat
  deriving DecidableEq, Inhabited

/-- Modelled from the spec: the `USB_STRING_DESC(s)` initializer from
`usb.h`: a string descriptor whose `bLength` is the 2-byte header plus two
bytes per 16-bit code unit. -/
def USB_STRING_DESC (s : List Nat) : usb_string_descriptor :=
  { bLength := 2 + 2 * s.length
    bDescriptorType := USB_DTYPE_STRING
    wData := s }

/-- Modelled from the spec: the `USB_ARRAY_DESC(...)` initializer from
`usb.h`: like `USB_STRING_DESC` but holding a list of 16-bit values
(here: supported language IDs). -/
def USB_ARRAY_DESC (a : List Nat) : usb_string_descriptor :=
  { bLength := 2 + 2 * a.length
    bDescriptorType := USB_DTYPE_STRING
    wData := a }

/-- Modelled from the spec: `INTSERIALNO_DESCRIPTOR`, the device
descriptor's serial-number string index, is defined in headers that are
not under src/.  The spec supplies no numeric value: it treats the serial
number string as optional and externally generated (spec, section 6) and
states that the device descriptor's string indices refer to positions
actually present in the String Table (spec, section 8).  We model the
constant as 0, the language-list position, the conventional
"no dedicated string" index, which is present in every table variant. -/
def INTSERIALNO_DESCRIPTOR : Nat := 0

/-- The build-time configuration surface of `src/descriptors.c`:
`eepromIntf` models whether `DFU_INTF_EEPROM` is defined, `canUpload`
whether `DFU_CAN_UPLOAD` is defined, and the remaining fields are the
externally supplied compile-time constants and display strings
(`DFU_EP0_SIZE`, `DFU_VENDOR_ID`, `DFU_DEVICE_ID`, `DFU_DETACH_TIMEOUT`,
`DFU_BLOCKSZ`, `DFU_STR_MANUF`, `DFU_STR_PRODUCT`, `DFU_STR_INTF0`,
`DFU_STR_INTF1`), strings given as lists of 16-bit code units. -/
structure BuildConfig where
  eepromIntf : Bool
  canUpload : Bool
  DFU_EP0_SIZE : Nat
  DFU_VENDOR_ID : Nat
  DFU_DEVICE_ID : Nat
  DFU_DETACH_TIMEOUT : Nat
  DFU_BLOCKSZ : Nat
  DFU_STR_MANUF : List Nat
  DFU_STR_PRODUCT : List Nat
  DFU_STR_INTF0 : List Nat
  DFU_STR_INTF1 : List Nat
  deriving DecidableEq

/-- `dfu_device_desc` from `src/descriptors.c` lines 34-49. -/
def dfu_device_desc (cfg : BuildConfig) : usb_device_descriptor :=
  { bLength := sizeof_usb_device_descriptor
    bDescriptorType := USB_DTYPE_DEVICE
    bcdUSB := VERSION_BCD 2 0 0
    bDeviceClass := USB_CLASS_PER_INTERFACE
    bDeviceSubClass := USB_SUBCLASS_NONE
    bDeviceProtocol := USB_PROTO_NONE
    bMaxPacketSize0 := cfg.DFU_EP0_SIZE
    idVendor := cfg.DFU_VENDOR_ID
    idProduct := cfg.DFU_DEVICE_ID
    bcdDevice := VERSION_BCD 1 0 0
    iManufacturer := 1
    iProduct := 2
    iSerialNumber := INTSERIALNO_DESCRIPTOR
    bNumConfigurations := 1 }

/-- `struct config_desc` from `src/descriptors.c` lines 25-32: the packed
composite configuration descriptor.  The `eeprom` member exists only when
`DFU_INTF_EEPROM` is defined, modelled as an `Option`. -/
structure config_desc where
  config : usb_config_descriptor
  flash : usb_interface_descriptor
  eeprom : Option usb_interface_descriptor
  dfufunc : usb_dfu_func_desc
  deriving DecidableEq

/-- `sizeof(struct config_desc)` for a given build variant: the packed
struct's size is the sum of its members' sizes (the second interface
descriptor is present only in the EEPROM variant). -/
def sizeof_config_desc (cfg : BuildConfig) : Nat :=
  sizeof_usb_config_descriptor + sizeof_usb_interface_descriptor
    + (if cfg.eepromIntf then sizeof_usb_interface_descriptor else 0)
    + sizeof_usb_dfu_func_desc

/-- The `.flash` interface descriptor of `dfu_config_desc`
(`src/descriptors.c` lines 62-72). -/
def dfu_flash_intf_desc : usb_interface_descriptor :=
  { bLength := sizeof_usb_interface_descriptor
    bDescriptorType := USB_DTYPE_INTERFACE
    bInterfaceNumber := 0
    bAlternateSetting := 0
    bNumEndpoints := 0
    bInterfaceClass := USB_CLASS_DFU
    bInterfaceSubClass := USB_DFU_SUBCLASS_DFU
    bInterfaceProtocol := USB_DFU_PROTO_DFU
    iInterface := 4 }

/-- The `.eeprom` interface descriptor of `dfu_config_desc`
(`src/descriptors.c` lines 74-84, compiled only when `DFU_INTF_EEPROM`
is defined). -/
def dfu_eeprom_intf_desc : usb_interface_descriptor :=
  { bLength := sizeof_usb_interface_descriptor
    bDescriptorType := USB_DTYPE_INTERFACE
    bInterfaceNumber := 0
    bAlternateSetting := 1
    bNumEndpoints := 0
    bInterfaceClass := USB_CLASS_DFU
    bInterfaceSubClass := USB_DFU_SUBCLASS_DFU
    bInterfaceProtocol := USB_DFU_PROTO_DFU
    iInterface := 5 }

/-- `dfu_config_desc` from `src/descriptors.c` lines 51-98: the composite
configuration descriptor.  `wTotalLength` is `sizeof(struct config_desc)`
as in the source; the functional descriptor's `bmAttributes` follows the
`DFU_CAN_UPLOAD` conditional of lines 89-93. -/
def dfu_config_desc (cfg : BuildConfig) : config_desc :=
  { config :=
      { bLength := sizeof_usb_config_descriptor
        bDescriptorType := USB_DTYPE_CONFIGURATION
        wTotalLength := sizeof_config_desc cfg
        bNumInterfaces := 1
        bConfigurationValue := 1
        iConfiguration := 3
        bmAttributes := USB_CFG_ATTR_RESERVED ||| USB_CFG_ATTR_SELFPOWERED
        bMaxPower := USB_CFG_POWER_MA 100 }
    flash := dfu_flash_intf_desc
    eeprom := if cfg.eepromIntf then some dfu_eeprom_intf_desc else none
    dfufunc :=
      { bLength := sizeof_usb_dfu_func_desc
        bDescriptorType := USB_DTYPE_DFU_FUNCTIONAL
        bmAttributes :=
          if cfg.canUpload then
            USB_DFU_ATTR_CAN_DNLOAD ||| USB_DFU_ATTR_CAN_UPLOAD
              ||| USB_DFU_ATTR_MANIF_TOL
          else
            USB_DFU_ATTR_CAN_DNLOAD ||| USB_DFU_ATTR_WILL_DETACH
              ||| USB_DFU_ATTR_MANIF_TOL
        wDetachTimeout := cfg.DFU_DETACH_TIMEOUT
        wTransferSize := cfg.DFU_BLOCKSZ
        bcdDFUVersion := VERSION_BCD 1 1 0 } }

/-- `dfu_lang_sdesc` (`src/descriptors.c` line 100). -/
def dfu_lang_sdesc : usb_string_descriptor :=
  USB_ARRAY_DESC [USB_LANGID_ENG_US]

/-- `dfu_manuf_sdesc` (line 101). -/
def dfu_manuf_sdesc (cfg : BuildConfig) : usb_string_descriptor :=
  USB_STRING_DESC cfg.DFU_STR_MANUF

/-- `dfu_product_sdesc` (line 102). -/
def dfu_product_sdesc (cfg : BuildConfig) : usb_string_descriptor :=
  USB_STRING_DESC cfg.DFU_STR_PRODUCT

/-- `dfu_config_sdesc` (line 103): the literal "DFU mode", 8 characters. -/
def dfu_config_sdesc : usb_string_descriptor :=
  USB_STRING_DESC [68, 70, 85, 32, 109, 111, 100, 101]

/-- `dfu_flash_sdesc` (line 104). -/
def dfu_flash_sdesc (cfg : BuildConfig) : usb_string_descriptor :=
  USB_STRING_DESC cfg.DFU_STR_INTF0

/-- `dfu_eeprom_sdesc` (line 106, only when `DFU_INTF_EEPROM` is defined). -/
def dfu_eeprom_sdesc (cfg : BuildConfig) : usb_string_descriptor :=
  USB_STRING_DESC cfg.DFU_STR_INTF1

/-- `dtable` from `src/descriptors.c` lines 108-117: the String Table, in
source order; the EEPROM interface-name entry is present only when
`DFU_INTF_EEPROM` is defined. -/
def dtable (cfg : BuildConfig) : List usb_string_descriptor :=
  [dfu_lang_sdesc, dfu_manuf_sdesc cfg, dfu_product_sdesc cfg,
   dfu_config_sdesc, dfu_flash_sdesc cfg]
  ++ (if cfg.eepromIntf then [dfu_eeprom_sdesc cfg] else [])

/-- The `usbd_respond` status values returned by `dfu_get_descriptor`
(only `usbd_ack` and `usbd_fail` occur in `src/descriptors.c`). -/
inductive usbd_respond where
  | usbd_ack
  | usbd_fail
  deriving DecidableEq

export usbd_respond (usbd_ack usbd_fail)

/-- Pointer identity of a descriptor the resolver can return through
`*address`: `&dfu_device_desc`, `&dfu_config_desc`, or `dtable[i]`. -/
inductive DescPtr where
  | devicePtr
  | configPtr
  | stringPtr (i : Nat)
  deriving DecidableEq

/-- The memory the resolver writes through its out-parameters, plus its
return status.  `address` models the `void **address` cell (its content
is `some p` once a descriptor pointer has been stored) and `len` models
the `uint16_t *len` cell. -/
structure DescOut where
  status : usbd_respond
  address : Option DescPtr
  len : Nat
  deriving DecidableEq

/-- The read `((struct usb_string_descriptor*)desc)->bLength` on line 144
of `src/descriptors.c`: every descriptor's first byte is its own
`bLength` field, so the cast reads the pointed-to descriptor's declared
length (for the composite configuration descriptor this is the 9-byte
header's `bLength`, not `wTotalLength`). -/
def descHeaderLength (cfg : BuildConfig) : DescPtr → Nat
  | DescPtr.devicePtr => (dfu_device_desc cfg).bLength
  | DescPtr.configPtr => (dfu_config_desc cfg).config.bLength
  | DescPtr.stringPtr i => ((dtable cfg).getD i default).bLength

/-- Lines 144-147 of `src/descriptors.c`: after the switch, an
acknowledged request substitutes the pointed-to descriptor's own
`bLength` whenever `dlen` is still 0, then stores `dlen` and the pointer
through the out-parameters and returns `usbd_ack`. -/
def finishDesc (cfg : BuildConfig) (desc : DescPtr) (dlen : Nat) : DescOut :=
  { status := usbd_ack
    address := some desc
    len := if dlen = 0 then descHeaderLength cfg desc else dlen }

/-- `dfu_get_descriptor` from `src/descriptors.c` lines 119-148.
`wValue` is the 16-bit request value (`dtype` its high byte, `dindx` its
low byte); `address0` and `len0` are the contents of the caller's
`*address` and `*len` cells on entry (`*len` doubles as the capacity
hint read on line 130).  The failure paths return before the final
stores, leaving both cells unchanged. -/
def dfu_get_descriptor (cfg : BuildConfig) (wValue : Nat)
    (address0 : Option DescPtr) (len0 : Nat) : DescOut :=
  let dtype := wValue / 256 % 256
  let dindx := wValue % 256
  if dtype = USB_DTYPE_DEVICE then
    finishDesc cfg DescPtr.devicePtr 0
  else if dtype = USB_DTYPE_CONFIGURATION then
    finishDesc cfg DescPtr.configPtr
      (if sizeof_config_desc cfg ≤ len0 then sizeof_config_desc cfg else 0)
  else if dtype = USB_DTYPE_STRING then
    if dindx < (dtable cfg).length then
      finishDesc cfg (DescPtr.stringPtr dindx) 0
    else
      { status := usbd_fail, address := address0, len := len0 }
  else
    { status := usbd_fail, address := address0, len := len0 }

/-- A concrete build configuration with both feature flags off, used to
evaluate the model on concrete inputs. -/
def sampleCfg : BuildConfig :=
  { eepromIntf := false
    canUpload := false
    DFU_EP0_SIZE := 8
    DFU_VENDOR_ID := 0x0483
    DFU_DEVICE_ID := 0xDF11
    DFU_DETACH_TIMEOUT := 500
    DFU_BLOCKSZ := 64
    DFU_STR_MANUF := [77, 70, 71]
    DFU_STR_PRODUCT := [83, 66, 79, 79, 84]
    DFU_STR_INTF0 := [70, 108, 97, 115, 104]
    DFU_STR_INTF1 := [69, 69, 80, 82, 79, 77] }

/-- A concrete build configuration with the EEPROM interface and upload
capability enabled. -/
def sampleCfgE : BuildConfig :=
  { sampleCfg with eepromIntf := true, canUpload := true }

/-! Helper lemmas shared by the claim theorems. -/

/-- The String Table has five entries, six when the EEPROM interface is
enabled. -/
theorem dtable_length (cfg : BuildConfig) :
    (dtable cfg).length = if cfg.eepromIntf then 6 else 5 := by
  cases h : cfg.eepromIntf <;> simp [dtable, h]

/-- Case analysis of `dfu_get_descriptor` on a STRING-type request. -/
theorem dfu_get_descriptor_string_case (cfg : BuildConfig) (wValue : Nat)
    (address0 : Option DescPtr) (len0 : Nat)
    (hty : wValue / 256 % 256 = USB_DTYPE_STRING) :
    dfu_get_descriptor cfg wValue address0 len0 =
      if wValue % 256 < (dtable cfg).length then
        { status := usbd_ack
          address := some (DescPtr.stringPtr (wValue % 256))
          len := ((dtable cfg).getD (wValue % 256) default).bLength }
      else
        { status := usbd_fail, address := address0, len := len0 } := by
  unfold dfu_get_descriptor
  simp only [hty, USB_DTYPE_STRING, USB_DTYPE_DEVICE, USB_DTYPE_CONFIGURATION]
  norm_num
  split
  · simp [finishDesc, descHeaderLength]
  · rfl

/-- Case analysis of `dfu_get_descriptor` on a DEVICE-type request. -/
theorem dfu_get_descriptor_device_case (cfg : BuildConfig) (wValue : Nat)
    (address0 : Option DescPtr) (len0 : Nat)
    (hty : wValue / 256 % 256 = USB_DTYPE_DEVICE) :
    dfu_get_descriptor cfg wValue address0 len0 =
      { status := usbd_ack
        address := some DescPtr.devicePtr
        len := (dfu_device_desc cfg).bLength } := by
  unfold dfu_get_descriptor
  simp only [hty, USB_DTYPE_DEVICE]
  norm_num [finishDesc, descHeaderLength]

/-- The composite configuration descriptor's size is never 0. -/
theorem sizeof_config_desc_ne_zero (cfg : BuildConfig) :
    sizeof_config_desc cfg ≠ 0 := by
  cases h : cfg.eepromIntf <;>
    simp [sizeof_config_desc, sizeof_usb_config_descriptor,
      sizeof_usb_interface_descriptor, sizeof_usb_dfu_func_desc, h]

/-- Case analysis of `dfu_get_descriptor` on a CONFIGURATION-type request:
the request is always acknowledged with the configuration descriptor's
reference; the returned length is the full composite size when the
capacity hint is at least that size, and otherwise the configuration
header's own `bLength` (via the line-144 fallback). -/
theorem dfu_get_descriptor_config_case (cfg : BuildConfig) (wValue : Nat)
    (address0 : Option DescPtr) (len0 : Nat)
    (hty : wValue / 256 % 256 = USB_DTYPE_CONFIGURATION) :
    dfu_get_descriptor cfg wValue address0 len0 =
      { status := usbd_ack
        address := some DescPtr.configPtr
        len := if sizeof_config_desc cfg ≤ len0 then sizeof_config_desc cfg
               else (dfu_config_desc cfg).config.bLength } := by
  unfold dfu_get_descriptor
  simp only [hty, USB_DTYPE_DEVICE, USB_DTYPE_CONFIGURATION]
  norm_num
  split
  · simp [finishDesc, sizeof_config_desc_ne_zero cfg]
  · simp [finishDesc, descHeaderLength]

/-- Case analysis of `dfu_get_descriptor` on an unrecognized descriptor
type: the `default` arm of the switch. -/
theorem dfu_get_descriptor_other_case (cfg : BuildConfig) (wValue : Nat)
    (address0 : Option DescPtr) (len0 : Nat)
    (h1 : wValue / 256 % 256 ≠ USB_DTYPE_DEVICE)
    (h2 : wValue / 256 % 256 ≠ USB_DTYPE_CONFIGURATION)
    (h3 : wValue / 256 % 256 ≠ USB_DTYPE_STRING) :
    dfu_get_descriptor cfg wValue address0 len0 =
      { status := usbd_fail, address := address0, len := len0 } := by
  unfold dfu_get_descriptor
  simp [h1, h2, h3]

/-! Claim theorems. -/

/-- C1: For every STRING request, `dfu_get_descriptor` succeeds exactly
when the descriptor index is within the String Table's bounds: for every
index below the table's size it acknowledges with that entry's reference
and a length equal to that string descriptor's own declared `bLength`
field, and for every index at or above the table's size it fails. -/
theorem string_resolve_iff_index_in_bounds (cfg : BuildConfig)
    (wValue : Nat) (address0 : Option DescPtr) (len0 : Nat)
    (hty : wValue / 256 % 256 = USB_DTYPE_STRING) :
    (wValue % 256 < (dtable cfg).length →
      dfu_get_descriptor cfg wValue address0 len0 =
        { status := usbd_ack
          address := some (DescPtr.stringPtr (wValue % 256))
          len := ((dtable cfg).getD (wValue % 256) default).bLength })
    ∧ ((dtable cfg).length ≤ wValue % 256 →
      (dfu_get_descriptor cfg wValue address0 len0).status = usbd_fail) := by
  rw [dfu_get_descriptor_string_case cfg wValue address0 len0 hty]
  constructor
  · intro h
    rw [if_pos h]
  · intro h
    rw [if_neg (not_lt.mpr h)]

/-- Witness for C1: with the EEPROM-less sample build, string index 1
(the manufacturer string, `bLength` = 8) resolves, and string index 99
(wValue = 0x0363, beyond the 5-entry table) fails. -/
theorem string_resolve_iff_index_in_bounds_witness :
    dfu_get_descriptor sampleCfg 769 none 0 =
      { status := usbd_ack, address := some (DescPtr.stringPtr 1), len := 8 }
    ∧ (dfu_get_descriptor sampleCfg 867 none 0).status = usbd_fail := by
  constructor
  · exact ((string_resolve_iff_index_in_bounds sampleCfg 769 none 0
      (by decide)).1 (by decide)).trans (by decide)
  · exact (string_resolve_iff_index_in_bounds sampleCfg 867 none 0
      (by decide)).2 (by decide)

/-- C2: evaluation of the code at the input on which the claim fails.  A
CONFIGURATION request (`wValue` = 0x0200) whose capacity hint (9) is
smaller than the composite size leaves `dlen` at 0, so line 144's
fallback reads the configuration *header's* `bLength` (9) instead of the
full composite size (27): the returned length is not the true total
length regardless of the capacity hint. -/
theorem config_short_capacity_returns_header_length :
    (dfu_get_descriptor sampleCfg 512 none 9).len =
      (dfu_config_desc sampleCfg).config.bLength
    ∧ (dfu_config_desc sampleCfg).config.bLength = 9
    ∧ sizeof_config_desc sampleCfg = 27
    ∧ (dfu_get_descriptor sampleCfg 512 none 9).len ≠
      sizeof_config_desc sampleCfg := by
  decide

/-- C3: for every request whose descriptor type (the high byte of
`wValue`) is not DEVICE, CONFIGURATION or STRING, `dfu_get_descriptor`
returns `usbd_fail`, for every descriptor index and every capacity
hint. -/
theorem unknown_dtype_fails (cfg : BuildConfig) (wValue : Nat)
    (address0 : Option DescPtr) (len0 : Nat)
    (h1 : wValue / 256 % 256 ≠ USB_DTYPE_DEVICE)
    (h2 : wValue / 256 % 256 ≠ USB_DTYPE_CONFIGURATION)
    (h3 : wValue / 256 % 256 ≠ USB_DTYPE_STRING) :
    (dfu_get_descriptor cfg wValue address0 len0).status = usbd_fail := by
  rw [dfu_get_descriptor_other_case cfg wValue address0 len0 h1 h2 h3]

/-- Witness for C3: descriptor type 0xFF (wValue = 0xFF00) fails. -/
theorem unknown_dtype_fails_witness :
    (dfu_get_descriptor sampleCfg 65280 none 7).status = usbd_fail :=
  unknown_dtype_fails sampleCfg 65280 none 7 (by decide) (by decide)
    (by decide)

/-- C4: for every CONFIGURATION request, `dfu_get_descriptor` never
fails: it acknowledges and returns the configuration descriptor's
reference for every capacity hint, including hints smaller than the full
composite size. -/
theorem config_request_always_acknowledged (cfg : BuildConfig)
    (wValue : Nat) (address0 : Option DescPtr) (len0 : Nat)
    (hty : wValue / 256 % 256 = USB_DTYPE_CONFIGURATION) :
    (dfu_get_descriptor cfg wValue address0 len0).status = usbd_ack
    ∧ (dfu_get_descriptor cfg wValue address0 len0).address =
      some DescPtr.configPtr := by
  rw [dfu_get_descriptor_config_case cfg wValue address0 len0 hty]
  exact ⟨rfl, rfl⟩

/-- Witness for C4: a CONFIGURATION request with capacity hint 9,
smaller than the 27-byte composite, is still acknowledged with the
configuration descriptor's reference. -/
theorem config_request_always_acknowledged_witness :
    (dfu_get_descriptor sampleCfg 512 none 9).status = usbd_ack
    ∧ (dfu_get_descriptor sampleCfg 512 none 9).address =
      some DescPtr.configPtr :=
  config_request_always_acknowledged sampleCfg 512 none 9 (by decide)

/-- C5: for every DEVICE request, `dfu_get_descriptor` acknowledges with
the singleton device descriptor's reference and a length equal to that
descriptor's own declared `bLength` field, which is the fixed 18-byte
device-descriptor size; the result is the same record for every
descriptor index (the low byte of `wValue` does not appear in it). -/
theorem device_resolve_ignores_index (cfg : BuildConfig) (wValue : Nat)
    (address0 : Option DescPtr) (len0 : Nat)
    (hty : wValue / 256 % 256 = USB_DTYPE_DEVICE) :
    dfu_get_descriptor cfg wValue address0 len0 =
      { status := usbd_ack
        address := some DescPtr.devicePtr
        len := (dfu_device_desc cfg).bLength }
    ∧ (dfu_device_desc cfg).bLength = sizeof_usb_device_descriptor
    ∧ sizeof_usb_device_descriptor = 18 :=
  ⟨dfu_get_descriptor_device_case cfg wValue address0 len0 hty, rfl, rfl⟩

/-- Witness for C5: DEVICE requests with indices 0 and 7 (wValue =
0x0100 and 0x0107) both return the device descriptor with length 18. -/
theorem device_resolve_ignores_index_witness :
    dfu_get_descriptor sampleCfg 256 none 64 =
      { status := usbd_ack, address := some DescPtr.devicePtr, len := 18 }
    ∧ dfu_get_descriptor sampleCfg 263 none 64 =
      { status := usbd_ack, address := some DescPtr.devicePtr, len := 18 } := by
  constructor
  · exact ((device_resolve_ignores_index sampleCfg 256 none 64
      (by decide)).1).trans (by decide)
  · exact ((device_resolve_ignores_index sampleCfg 263 none 64
      (by decide)).1).trans (by decide)

/-- C6: in every build variant, the configuration descriptor's declared
`wTotalLength` equals the sum of the declared sizes of the configuration
header, every embedded interface descriptor (one, plus the EEPROM one
when present) and the DFU functional descriptor — the value is computed
from the composite layout (`sizeof(struct config_desc)`), not
hard-coded. -/
theorem config_wTotalLength_eq_component_sum (cfg : BuildConfig) :
    (dfu_config_desc cfg).config.wTotalLength =
      (dfu_config_desc cfg).config.bLength
      + (dfu_config_desc cfg).flash.bLength
      + (Option.elim (dfu_config_desc cfg).eeprom 0 fun e => e.bLength)
      + (dfu_config_desc cfg).dfufunc.bLength := by
  cases h : cfg.eepromIntf <;>
    simp [dfu_config_desc, sizeof_config_desc, h, dfu_flash_intf_desc,
      dfu_eeprom_intf_desc, sizeof_usb_config_descriptor,
      sizeof_usb_interface_descriptor, sizeof_usb_dfu_func_desc]

/-- C7: the DFU functional descriptor's capability byte by build
configuration: can-download and manifestation-tolerant are always
advertised; can-upload is advertised exactly when upload capability is
enabled; will-detach is advertised exactly when upload capability is
disabled (so it is NOT advertised when upload is enabled). -/
theorem dfufunc_attrs_by_build (cfg : BuildConfig) :
    ((dfu_config_desc cfg).dfufunc.bmAttributes
        &&& USB_DFU_ATTR_CAN_DNLOAD ≠ 0)
    ∧ ((dfu_config_desc cfg).dfufunc.bmAttributes
        &&& USB_DFU_ATTR_MANIF_TOL ≠ 0)
    ∧ (((dfu_config_desc cfg).dfufunc.bmAttributes
        &&& USB_DFU_ATTR_CAN_UPLOAD ≠ 0) ↔ cfg.canUpload = true)
    ∧ (((dfu_config_desc cfg).dfufunc.bmAttributes
        &&& USB_DFU_ATTR_WILL_DETACH ≠ 0) ↔ cfg.canUpload = false) := by
  cases h : cfg.canUpload <;> simp [dfu_config_desc, h] <;> decide

/-- C8: the device descriptor's `bNumConfigurations` is 1, and its
`iManufacturer`, `iProduct` and `iSerialNumber` string indices each name
a position actually present in the String Table, so resolving each of
them as a STRING request is acknowledged, in every build variant. -/
theorem device_string_indices_present (cfg : BuildConfig)
    (address0 : Option DescPtr) (len0 : Nat) :
    (dfu_device_desc cfg).bNumConfigurations = 1
    ∧ (dfu_device_desc cfg).iManufacturer < (dtable cfg).length
    ∧ (dfu_device_desc cfg).iProduct < (dtable cfg).length
    ∧ (dfu_device_desc cfg).iSerialNumber < (dtable cfg).length
    ∧ (dfu_get_descriptor cfg
        (USB_DTYPE_STRING * 256 + (dfu_device_desc cfg).iManufacturer)
        address0 len0).status = usbd_ack
    ∧ (dfu_get_descriptor cfg
        (USB_DTYPE_STRING * 256 + (dfu_device_desc cfg).iProduct)
        address0 len0).status = usbd_ack
    ∧ (dfu_get_descriptor cfg
        (USB_DTYPE_STRING * 256 + (dfu_device_desc cfg).iSerialNumber)
        address0 len0).status = usbd_ack := by
  have h5 : 5 ≤ (dtable cfg).length := by
    rw [dtable_length]
    cases cfg.eepromIntf <;> norm_num
  have hstatus : ∀ i : Nat, i < 5 →
      (dfu_get_descriptor cfg (USB_DTYPE_STRING * 256 + i)
        address0 len0).status = usbd_ack := by
    intro i hi
    have hty : (USB_DTYPE_STRING * 256 + i) / 256 % 256 =
        USB_DTYPE_STRING := by
      simp only [USB_DTYPE_STRING]
      omega
    have hidx : (USB_DTYPE_STRING * 256 + i) % 256 = i := by
      simp only [USB_DTYPE_STRING]
      omega
    rw [dfu_get_descriptor_string_case cfg _ address0 len0 hty, hidx,
      if_pos (lt_of_lt_of_le hi h5)]
  have hidx5 : ∀ i : Nat, i < 5 → i < (dtable cfg).length := fun i hi =>
    lt_of_lt_of_le hi h5
  exact ⟨rfl, hidx5 1 (by norm_num), hidx5 2 (by norm_num),
    hidx5 0 (by norm_num),
    hstatus 1 (by norm_num), hstatus 2 (by norm_num),
    hstatus 0 (by norm_num)⟩

/-- C9: whenever `dfu_get_descriptor` returns `usbd_fail` (out-of-range
string index or unrecognized descriptor type), the caller's `*address`
and `*len` cells still hold the values they had on entry: the code
stores through them only on the acknowledge path. -/
theorem fail_leaves_outputs_unchanged (cfg : BuildConfig) (wValue : Nat)
    (address0 : Option DescPtr) (len0 : Nat)
    (hf : (dfu_get_descriptor cfg wValue address0 len0).status = usbd_fail) :
    (dfu_get_descriptor cfg wValue address0 len0).address = address0
    ∧ (dfu_get_descriptor cfg wValue address0 len0).len = len0 := by
  revert hf
  simp only [dfu_get_descriptor]
  split_ifs <;> simp [finishDesc]

/-- Witness for C9: a failing STRING request (index 99) leaves a
previously stored pointer and length 55 untouched. -/
theorem fail_leaves_outputs_unchanged_witness :
    (dfu_get_descriptor sampleCfg 867 (some DescPtr.devicePtr) 55).address =
      some DescPtr.devicePtr
    ∧ (dfu_get_descriptor sampleCfg 867 (some DescPtr.devicePtr) 55).len =
      55 :=
  fail_leaves_outputs_unchanged sampleCfg 867 (some DescPtr.devicePtr) 55
    (by decide)

/-- C10: in every build variant `bNumInterfaces` is 1; the flash
interface descriptor carries interface number 0 and alternate setting 0,
and the EEPROM entry — present exactly when the EEPROM feature is
enabled — is the flash descriptor with only its alternate setting
changed to 1 (and its interface-name string index to 5): an alternate
setting of interface 0, not a second interface. -/
theorem eeprom_entry_is_alt_setting_of_interface0 (cfg : BuildConfig) :
    (dfu_config_desc cfg).config.bNumInterfaces = 1
    ∧ (dfu_config_desc cfg).flash.bInterfaceNumber = 0
    ∧ (dfu_config_desc cfg).flash.bAlternateSetting = 0
    ∧ (dfu_config_desc cfg).eeprom =
        (if cfg.eepromIntf then
          some { (dfu_config_desc cfg).flash with
                  bAlternateSetting := 1, iInterface := 5 }
         else none) := by
  refine ⟨rfl, rfl, rfl, ?_⟩
  cases h : cfg.eepromIntf <;>
    simp [dfu_config_desc, h, dfu_flash_intf_desc, dfu_eeprom_intf_desc]

end SbootDescriptors
